import Mathlib

/-!
# Verification of the Floss Pandora host/gatt bridging layer

Shallow embedding of `floss/pandora/server/host.py` and
`floss/pandora/server/gatt.py`: the observer callbacks, the futures they
resolve, and the RequestHandler control flow (registration, triggering
calls, awaits, `finally` cleanup) are transcribed as executable Lean
definitions, and the specified invariants are settled against them.

Conventions of the embedding:
* `asyncio.Future` is `Future α`: `set_result` on an already-resolved
  future raises `InvalidStateError`, exactly as in the Python runtime.
* Event delivery is modelled by applying the observer-callback function to
  the current task state; side effects (register/unregister calls,
  triggering device calls, yields) are recorded in an action trace.
* Failure-message f-strings are abstracted into inductive reason values
  carrying the same data the Python message interpolates.
* Enum values (`BondState`, `SspVariant`) are inductive types with the
  constructors the source uses; `GattStatus` success is status `0`.
-/

namespace Floss

/-- Python exceptions that the embedded code can raise. `nameError` stands
for `UnboundLocalError` (a subclass of `NameError`): a local variable read
before any assignment. -/
inductive PyError where
  | invalidStateError
  | nameError
  | attributeError
  | runtimeError (reason : String)
  | timeoutError
  deriving DecidableEq, Repr

/-- `asyncio.Future`: pending or resolved with a value. (Cancellation is
modelled at the handler level, not on the future itself.) -/
inductive Future (α : Type) where
  | pending
  | resolved (value : α)
  deriving DecidableEq, Repr

/-- `Future.set_result`: resolves a pending future; raises
`InvalidStateError` when the future is already resolved. -/
def Future.set_result {α : Type} (f : Future α) (v : α) : Except PyError (Future α) :=
  match f with
  | .pending => .ok (.resolved v)
  | .resolved _ => .error .invalidStateError

/-- `floss_enums.BondState`. -/
inductive BondState where
  | notBonded
  | bonding
  | bonded
  deriving DecidableEq, Repr

/-- `floss_enums.SspVariant`. -/
inductive SspVariant where
  | passkeyConfirmation
  | passkeyEntry
  | consent
  | passkeyNotification
  deriving DecidableEq, Repr

/-- The client objects observers are registered on
(`adapter_client`, `advertising_client`, `scanner_client`, `gatt_client`). -/
inductive Client where
  | adapter
  | advertising
  | scanner
  | gatt
  deriving DecidableEq, Repr

/-- Side effects the handlers perform, recorded in execution order. -/
inductive Act where
  | register (c : Client) (name : Nat)
  | unregister (c : Client) (name : Nat)
  | startAdvSet (reg_id : Nat)
  | stopAdvSet (advertiser_id : Option Nat)
  | startScan (scanner_id : Option Nat)
  | stopScan (scanner_id : Nat)
  | startDiscovery
  | stopDiscovery
  | yieldConn (address : String)
  | connectAllProfiles (address : String)
  | setPairingConfirmation (address : String)
  | readCharacteristic (handle : Nat)
  | writeCharacteristic (handle : Nat)
  | readDescriptor (handle : Nat)
  | writeDescriptor (handle : Nat)
  deriving DecidableEq, Repr

/-- Outcome of a unary handler: a returned response, a raised exception,
or `blocked` — the handler is suspended on an `await` that no event in the
delivered trace resolves (and that has no timeout bound in the code). -/
inductive UnaryOutcome (α : Type) where
  | ok (v : α)
  | err (e : PyError)
  | blocked
  deriving DecidableEq, Repr

/-! ## Pairing observer (`HostService.Connect.PairingObserver`, host.py) -/

/-- Abstraction of the f-string failure messages in the pairing callbacks,
carrying the data the Python messages interpolate. -/
inductive PairFailReason where
  | bondFailed (status : Nat) (state : BondState)
  | connectAllFailed
  | pairingConfirmationFailed (err : Bool) (result : Bool)
  deriving DecidableEq, Repr

/-- The environment seen by `PairingObserver`: the `adapter_client` query
and triggering calls the callbacks make. `set_pairing_confirmation` returns
the `(err, result)` pair later delivered to `on_set_pairing_confirmation`. -/
structure PairEnv where
  is_connected : String → Bool
  is_bonded : String → Bool
  connect_all_enabled_profiles : String → Bool
  set_pairing_confirmation : String → Bool × Bool

/-- The mutable state the pairing callbacks touch: the `connect_device`
future of the task dict, plus the recorded side effects and any exceptions
raised inside callbacks. -/
structure PairState where
  connect_device : Future (Bool × Option PairFailReason)
  trace : List Act
  raised : List PyError
  deriving DecidableEq, Repr

/-- Initial pairing task state: a fresh pending future. -/
def PairState.init : PairState := ⟨.pending, [], []⟩

/-- `self.task['connect_device'].set_result(v)` as executed inside a
callback: on an already-resolved future the `InvalidStateError` is recorded
in `raised` and the future is left unchanged. -/
def PairState.setResult (st : PairState) (v : Bool × Option PairFailReason) : PairState :=
  match st.connect_device.set_result v with
  | .ok f => { st with connect_device := f }
  | .error e => { st with raised := st.raised ++ [e] }

/-- `PairingObserver.on_bond_state_changed(status, address, state)`. -/
def on_bond_state_changed (env : PairEnv) (taskAddr : String) (st : PairState)
    (status : Nat) (address : String) (state : BondState) : PairState :=
  if address ≠ taskAddr then st
  else if status ≠ 0 then
    st.setResult (false, some (.bondFailed status state))
  else if state = BondState.bonded then
    if ¬ env.is_connected taskAddr then
      let st := { st with trace := st.trace ++ [.connectAllProfiles taskAddr] }
      if ¬ env.connect_all_enabled_profiles taskAddr then
        st.setResult (false, some .connectAllFailed)
      else st
    else
      st.setResult (true, none)
  else st

/-- `PairingObserver.on_set_pairing_confirmation(err, result)`. -/
def on_set_pairing_confirmation (st : PairState) (err result : Bool) : PairState :=
  if err || !result then
    st.setResult (false, some (.pairingConfirmationFailed err result))
  else st

/-- `PairingObserver.on_ssp_request(remote_device, ..., variant, ...)`;
the `set_pairing_confirmation` triggering call delivers its `(err, result)`
outcome to `on_set_pairing_confirmation`, modelled as immediately applying
that callback. -/
def on_ssp_request (env : PairEnv) (taskAddr : String) (st : PairState)
    (address : String) (variant : SspVariant) : PairState :=
  if address ≠ taskAddr then st
  else if variant = SspVariant.consent then
    let st := { st with trace := st.trace ++ [.setPairingConfirmation address] }
    let er := env.set_pairing_confirmation address
    on_set_pairing_confirmation st er.1 er.2
  else st

/-- `PairingObserver.on_device_connected(remote_device)`. -/
def on_device_connected (env : PairEnv) (taskAddr : String) (st : PairState)
    (address : String) : PairState :=
  if address ≠ taskAddr then st
  else if env.is_bonded address then
    st.setResult (true, none)
  else st

/-- Events the pairing observer can receive. -/
inductive PairEvent where
  | bondStateChanged (status : Nat) (address : String) (state : BondState)
  | sspRequest (address : String) (variant : SspVariant)
  | deviceConnected (address : String)
  deriving DecidableEq, Repr

/-- Deliver one event to the pairing observer. -/
def processPairEvent (env : PairEnv) (taskAddr : String) (st : PairState) :
    PairEvent → PairState
  | .bondStateChanged status address state =>
      on_bond_state_changed env taskAddr st status address state
  | .sspRequest address variant => on_ssp_request env taskAddr st address variant
  | .deviceConnected address => on_device_connected env taskAddr st address

/-- Deliver a sequence of events to the pairing observer. -/
def processPairEvents (env : PairEnv) (taskAddr : String) (st : PairState)
    (evs : List PairEvent) : PairState :=
  evs.foldl (processPairEvent env taskAddr) st

/-! ## Scan observer (`HostService.Scan.ScanObserver`, host.py) -/

/-- The task state of `ScanObserver`: the scanner uuid correlation key,
the `register_scanner` future, and the `scan_results` queue (contents in
arrival order). Scan-result payloads are opaque (`Nat`). -/
structure ScanState where
  uuid : Nat
  register_scanner : Future (Option Nat)
  scan_results : List Nat
  raised : List PyError
  deriving DecidableEq, Repr

/-- `ScanObserver.on_scanner_registered(uuid, scanner_id, status)`:
mismatching uuid returns early; a non-SUCCESS status replaces the scanner
id by `None`; the future is then resolved. `status = 0` is
`GattStatus.SUCCESS`. -/
def on_scanner_registered (st : ScanState) (uuid scanner_id status : Nat) : ScanState :=
  if uuid ≠ st.uuid then st
  else
    let sid : Option Nat := if status ≠ 0 then none else some scanner_id
    match st.register_scanner.set_result sid with
    | .ok f => { st with register_scanner := f }
    | .error e => { st with raised := st.raised ++ [e] }

/-- `ScanObserver.on_scan_result(scan_result)`: enqueues the result into
the `scan_results` queue (via `run_coroutine_threadsafe(queue.put, loop)`). -/
def on_scan_result (st : ScanState) (scan_result : Nat) : ScanState :=
  { st with scan_results := st.scan_results ++ [scan_result] }

/-! ## `HostService.Advertise` (host.py)

The streaming handler is embedded as a fuel-indexed loop over a script
that supplies, per iteration: whether `advertising_client.active_advs` is
non-empty, the outcome of awaiting `on_advertising_set_started` under the
5-second `asyncio.wait_for` bound, and the next address from the
`connections` queue (`none` = the consumer cancels during that `get`).
Fuel `0` models consumer cancellation at the head of the loop. All side
effects are recorded in the trace; `finally` runs on every exit. -/

/-- Outcome of `await asyncio.wait_for(advertising_request[...], timeout=5)`:
either the `on_advertising_set_started` event arrived (carrying the
advertiser id, replaced by `none` on a non-SUCCESS status), or the 5 s
bound elapsed and `TimeoutError` propagates. -/
inductive StartOutcome where
  | confirmed (advertiser_id : Option Nat)
  | timeout
  deriving DecidableEq, Repr

/-- Per-iteration environment for `Advertise`. -/
structure AdvScript where
  activeAdvs : Nat → Bool
  start : Nat → StartOutcome
  conn : Nat → Option String

/-- Handler-local state of `Advertise`: fresh-name counter (standing for
`utils.create_observer_name`), the `observers` list, `started_ids`, and
the action trace. -/
structure AdvState where
  nextName : Nat
  observers : List Nat
  started_ids : List (Option Nat)
  trace : List Act
  deriving DecidableEq, Repr

/-- Append an action to the trace. -/
def AdvState.emit (s : AdvState) (a : Act) : AdvState :=
  { s with trace := s.trace ++ [a] }

/-- `name = utils.create_observer_name(observer);
client.register_callback_observer(name, observer); observers.append(...)`. -/
def AdvState.registerFresh (s : AdvState) (c : Client) : AdvState :=
  { s with
    nextName := s.nextName + 1
    observers := s.observers ++ [s.nextName]
    trace := s.trace ++ [.register c s.nextName] }

/-- One iteration of the `while True` body of `Advertise`. Returns
`(continue?, state)`: `continue? = false` when an exception or consumer
cancellation escapes the loop (start timeout, or cancellation inside
`connections.get()`). -/
def advIter (script : AdvScript) (connectable : Bool) (i : Nat) (s : AdvState) :
    Bool × AdvState :=
  let step1 : Bool × AdvState :=
    if script.activeAdvs i then (true, s)
    else
      let s := s.emit (.startAdvSet i)
      let s := s.registerFresh .advertising
      match script.start i with
      | .timeout => (false, s)
      | .confirmed idOpt => (true, { s with started_ids := s.started_ids ++ [idOpt] })
  match step1 with
  | (false, s) => (false, s)
  | (true, s) =>
    if !connectable then (true, s)
    else
      match script.conn i with
      | none => (false, s)
      | some a => (true, s.emit (.yieldConn a))

/-- The `while True` loop, bounded by fuel (remaining iterations before
consumer cancellation). -/
def advLoop (script : AdvScript) (connectable : Bool) :
    Nat → Nat → AdvState → AdvState
  | 0, _, s => s
  | fuel + 1, i, s =>
    match advIter script connectable i s with
    | (false, s) => s
    | (true, s) => advLoop script connectable fuel (i + 1) s

/-- The `finally` block of `Advertise`: for every `(name, observer)` in
`observers`, unregister from BOTH the adapter client and the advertising
client; then `stop_advertising_set` for each entry of `started_ids`. -/
def advFinally (s : AdvState) : AdvState :=
  let s := s.observers.foldl
    (fun s n => (s.emit (.unregister .adapter n)).emit (.unregister .advertising n)) s
  s.started_ids.foldl (fun s idOpt => s.emit (.stopAdvSet idOpt)) s

/-- A full `Advertise` execution: the connection observer is registered on
the adapter client first when the request is connectable, then the loop
runs for `fuel` iterations, then `finally` cleanup. -/
def advertiseRun (script : AdvScript) (connectable : Bool) (fuel : Nat) : AdvState :=
  let s0 : AdvState := ⟨0, [], [], []⟩
  let s0 := if connectable then s0.registerFresh .adapter else s0
  advFinally (advLoop script connectable fuel 0 s0)

/-- Number of `register_callback_observer` calls in a trace. -/
def countReg (t : List Act) : Nat :=
  (t.filter fun a => match a with | .register _ _ => true | _ => false).length

/-- Number of `unregister_callback_observer` calls in a trace. -/
def countUnreg (t : List Act) : Nat :=
  (t.filter fun a => match a with | .unregister _ _ => true | _ => false).length

/-- Number of `start_advertising_set` calls in a trace. -/
def countStartAdv (t : List Act) : Nat :=
  (t.filter fun a => match a with | .startAdvSet _ => true | _ => false).length

/-- The `stop_advertising_set` arguments appearing in a trace, in order. -/
def stopsOf (t : List Act) : List (Option Nat) :=
  t.filterMap fun a => match a with | .stopAdvSet i => some i | _ => none

/-- Number of `stop_scan` calls in a trace. -/
def countStopScan (t : List Act) : Nat :=
  (t.filter fun a => match a with | .stopScan _ => true | _ => false).length

/-- Number of `stop_discovery` calls in a trace. -/
def countStopDiscovery (t : List Act) : Nat :=
  (t.filter fun a => match a with | .stopDiscovery => true | _ => false).length

/-! ## `HostService.Scan` (host.py)

`scanner_id`, `name` and `observer` are initialised to `None` before the
`try`; inside the `try` the observer is registered on the scanner client,
`scanner_id` awaits the `register_scanner` future under a 10-second
`asyncio.wait_for` (a non-SUCCESS `on_scanner_registered` status resolves
it with `None`), then `start_scan(scanner_id)` is issued and the loop
yields queued scan results until the consumer cancels. The loop body makes
no registry or device-activity calls, so every exit (timeout of the
registration wait, or consumer cancellation anywhere in the loop) reaches
the same `finally`: `stop_scan(scanner_id)` only when `scanner_id` is not
`None`, and unregistration only when `name` and `observer` are bound. -/
def scanRun (reg : StartOutcome) : List Act :=
  let t : List Act := [.register .scanner 0]
  match reg with
  | .timeout => t ++ [.unregister .scanner 0]
  | .confirmed sid =>
    let t := t ++ [.startScan sid]
    match sid with
    | some i => t ++ [.stopScan i, .unregister .scanner 0]
    | none => t ++ [.unregister .scanner 0]

/-! ## `HostService.Inquiry` (host.py) -/

/-- An `Inquiry` execution. `alreadyDiscovering` is `is_discovering()`;
`confirm` is whether the `on_discovering_changed(True)` event arrived
within the 10-second `wait_for` bound (irrelevant when already
discovering). The result loop makes no further device calls, so all exits
reach the `finally`: `stop_discovery()` unconditionally, then each
observer in `observers` is unregistered from the adapter client. -/
def inquiryRun (alreadyDiscovering : Bool) (confirm : Bool) : List Act :=
  if alreadyDiscovering then
    [.register .adapter 0] ++ [.stopDiscovery, .unregister .adapter 0]
  else
    let t : List Act := [.register .adapter 0, .startDiscovery]
    if confirm then
      t ++ [.register .adapter 1] ++ [.stopDiscovery, .unregister .adapter 0, .unregister .adapter 1]
    else
      t ++ [.stopDiscovery, .unregister .adapter 0]

/-! ## `GATTService.ExchangeMTU` (gatt.py) -/

/-- An `on_configure_mtu(addr, mtu, status)` event. -/
structure MtuEvent where
  addr : String
  mtu : Nat
  status : Nat
  deriving DecidableEq, Repr

/-- Result of an `ExchangeMTU` execution: observer registration and
unregistration counts and the RPC outcome. -/
structure MtuRun where
  registers : Nat
  unregisters : Nat
  outcome : UnaryOutcome Unit
  deriving DecidableEq, Repr

/-- `GATTService.ExchangeMTU`: register the `MTUChangeObserver`, issue
`configure_mtu`, then `status = await configure_mtu` — a bare await with
no `asyncio.wait_for` bound. The observer resolves the future with the
status of the first event whose address matches (every matching event is
forwarded, success or not). If no delivered event matches, the handler
stays suspended (`blocked`) and the `finally` has not run. A non-SUCCESS
status raises `RuntimeError` in the handler; `finally` unregisters. -/
def exchangeMTU (address : String) (events : List MtuEvent) : MtuRun :=
  match events.find? (fun e => e.addr == address) with
  | none => ⟨1, 0, .blocked⟩
  | some e =>
    if e.status ≠ 0 then ⟨1, 1, .err (.runtimeError "Failed to configure MTU.")⟩
    else ⟨1, 1, .ok ()⟩

/-! ## `GATTService.WriteAttFromHandle` (gatt.py) -/

/-- The `status` field of the `WriteResponse`: either the status carried
by the write-complete event, or the `gatt_pb2.INVALID_HANDLE` marker. -/
inductive AttStatusField where
  | fromEvent (status : Nat)
  | invalidHandle
  deriving DecidableEq, Repr

/-- Result of a `WriteAttFromHandle` execution: the action trace and the
`WriteResponse(handle, status)` payload. -/
structure WriteRun where
  trace : List Act
  response : Nat × AttStatusField
  deriving DecidableEq, Repr

/-- `GATTService.WriteAttFromHandle`. Observer names `0` (write observer)
and `1` (characteristic-read observer) are registered on the gatt client;
`read_characteristic` is issued and `charStatus` is the status resolving
the `characteristics` future. On non-SUCCESS, observer `2`
(descriptor-read observer) is registered, `read_descriptor` issued and
`descStatus` resolves it; if that also fails, `valid_handle` becomes
`False` and no write is issued. Otherwise the corresponding write call is
issued and `writeEvent = (status, handle)` resolves the `write_attribute`
future. The `finally` unregisters every observer in `observers`; the
response carries the write event's handle and status when `valid_handle`,
else the request handle with `INVALID_HANDLE`. Awaited events are
abstracted as the payloads that resolve the corresponding futures. -/
def writeAttFromHandle (reqHandle charStatus descStatus : Nat)
    (writeEvent : Nat × Nat) : WriteRun :=
  let t : List Act := [.register .gatt 0, .register .gatt 1, .readCharacteristic reqHandle]
  if charStatus ≠ 0 then
    let t := t ++ [.register .gatt 2, .readDescriptor reqHandle]
    if descStatus ≠ 0 then
      ⟨t ++ [.unregister .gatt 0, .unregister .gatt 1, .unregister .gatt 2],
        (reqHandle, .invalidHandle)⟩
    else
      let t := t ++ [.writeDescriptor reqHandle]
      ⟨t ++ [.unregister .gatt 0, .unregister .gatt 1, .unregister .gatt 2],
        (writeEvent.2, .fromEvent writeEvent.1)⟩
  else
    let t := t ++ [.writeCharacteristic reqHandle]
    ⟨t ++ [.unregister .gatt 0, .unregister .gatt 1],
      (writeEvent.2, .fromEvent writeEvent.1)⟩

/-! ## `HostService.WaitConnection` (host.py) -/

/-- The instance attributes `HostService.__init__` assigns on `self`. -/
def hostServiceAttrs : List String := ["server", "bluetooth", "waited_connections"]

/-- Result of a `WaitConnection` execution. `tookWaitPath` is whether the
handler entered the observer-registration/await branch; `waitedAfter` is
the content of `self.waited_connections` when the call ends. -/
structure WaitConnRun where
  tookWaitPath : Bool
  registers : Nat
  unregisters : Nat
  waitedAfter : List String
  outcome : UnaryOutcome String
  deriving DecidableEq, Repr

/-- `HostService.WaitConnection`: the guard is
`not is_connected(address) or address not in self.waited_connections`; on
the wait path the `ConnectionObserver` is registered and the first
delivered `on_device_connected` event with a matching address resolves the
future (a bare await, no timeout). After the `finally` unregisters, the
source executes `self.waited_connection.add(address)`: attribute lookup of
`waited_connection` on the service instance, which `__init__` never
assigns (it assigns `waited_connections`), raising `AttributeError`. -/
def waitConnection (is_connected : Bool) (waited_connections : List String)
    (address : String) (events : List String) : WaitConnRun :=
  if !is_connected || !(waited_connections.contains address) then
    match events.find? (fun a => a == address) with
    | none => ⟨true, 1, 0, waited_connections, .blocked⟩
    | some _ =>
      if hostServiceAttrs.contains "waited_connection" then
        ⟨true, 1, 1, waited_connections ++ [address], .ok address⟩
      else
        ⟨true, 1, 1, waited_connections, .err .attributeError⟩
  else
    ⟨false, 0, 0, waited_connections, .ok address⟩

/-! ## `GATTService.DiscoverServicesSdp` (gatt.py) -/

/-- A Python value as it flows through the guard expression
`(uuids is None or len(uuids)) == 0`. -/
inductive PyVal where
  | pyBool (b : Bool)
  | pyInt (n : Nat)
  deriving DecidableEq, Repr

/-- `uuids is None or len(uuids)`: Python `or` returns the first operand
when it is truthy (`True` when `uuids` is `None`), else the second
(the `int` length). -/
def sdpGuardOperand (uuids : Option (List Nat)) : PyVal :=
  match uuids with
  | none => .pyBool true
  | some l => .pyInt l.length

/-- Python `v == 0`: `True == 0` is `False`, `False == 0` is `True`, and
an `int` compares numerically. -/
def pyEqZero : PyVal → Bool
  | .pyBool b => !b
  | .pyInt n => n == 0

/-- Result of a `DiscoverServicesSdp` execution. -/
structure SdpRun where
  registers : Nat
  unregisters : Nat
  outcome : UnaryOutcome (List Nat)
  deriving DecidableEq, Repr

/-- `GATTService.DiscoverServicesSdp`. The first guard is
`get_bond_state(address) == BondState.BONDING and (uuids is None or
len(uuids)) == 0` (note the parenthesisation: `len(uuids)` is computed
before the `== 0` comparison, and `uuids is None` short-circuits to
`True`, which is not `== 0`). When the guard holds, the handler returns an
empty response from inside the `try`, so `finally` runs first and reads
the local variables `name` and `observer`, which no path in a BONDING
call has assigned: `UnboundLocalError` (a `NameError`). When the bond
state is not BONDING, the observer is registered, `fetch_remote` is
issued (falsy return raises `RuntimeError`), the handler awaits
`device_uuids_changed` (bare await: `blocked` if no event arrives),
re-reads the uuids (`uuidsAfter`), and `finally` unregisters. When the
bond state is BONDING and the guard is false (`uuids` is `None` or
non-empty), registration is skipped, the response is built, and `finally`
again reads the unbound `name`: `NameError`. `fetch_ok` is the return of
`fetch_remote`, `eventArrives` whether a matching
`on_device_properties_changed` with `Uuids` arrives. -/
def discoverServicesSdp (bond_state : BondState) (uuids : Option (List Nat))
    (fetch_ok : Bool) (eventArrives : Bool) (uuidsAfter : Option (List Nat)) : SdpRun :=
  let guard := bond_state = BondState.bonding ∧ pyEqZero (sdpGuardOperand uuids) = true
  if guard then
    ⟨0, 0, .err .nameError⟩
  else if bond_state ≠ BondState.bonding then
    if !fetch_ok then ⟨1, 1, .err (.runtimeError "Failed to fetch remote device uuids.")⟩
    else if !eventArrives then ⟨1, 0, .blocked⟩
    else ⟨1, 1, .ok (uuidsAfter.getD [])⟩
  else
    ⟨0, 0, .err .nameError⟩

/-! ## Theorems -/

/-- A `set_result` attempt on an already-resolved `connect_device` future
leaves the resolved value unchanged (the `InvalidStateError` is recorded). -/
theorem PairState.setResult_preserves_resolved (st : PairState)
    (v w : Bool × Option PairFailReason) (h : st.connect_device = .resolved w) :
    (st.setResult v).connect_device = .resolved w := by
  simp [PairState.setResult, h, Future.set_result]

/-- C1 counterexample: deliver `on_bond_state_changed(status=0, "AA",
BONDED)` with the device already connected — the future resolves success —
then `on_device_connected("AA")` with the device bonded. The second
matching event is not a no-op: its `set_result` call raises
`InvalidStateError`, refuting the claim that a later matching event does
not raise. (The first resolved value is preserved.) -/
theorem connect_second_matching_event_raises :
    (processPairEvents
      ⟨fun _ => true, fun _ => true, fun _ => true, fun _ => (false, true)⟩ "AA"
      PairState.init
      [.bondStateChanged 0 "AA" .bonded, .deviceConnected "AA"]).raised
      = [PyError.invalidStateError] ∧
    (processPairEvents
      ⟨fun _ => true, fun _ => true, fun _ => true, fun _ => (false, true)⟩ "AA"
      PairState.init
      [.bondStateChanged 0 "AA" .bonded, .deviceConnected "AA"]).connect_device
      = .resolved (true, none) := by
  constructor <;> rfl

/-- C1 (amended): only the first matching event determines the result —
once `connect_device` is resolved, no later event (matching or not)
overwrites the resolved value; but a later matching event that attempts
resolution raises `InvalidStateError` instead of being a silent no-op. -/
theorem connect_first_resolution_wins (env : PairEnv) (taskAddr : String)
    (st : PairState) (v : Bool × Option PairFailReason) (ev : PairEvent)
    (h : st.connect_device = .resolved v) :
    (processPairEvent env taskAddr st ev).connect_device = .resolved v := by
  cases ev with
  | bondStateChanged status address state =>
    simp only [processPairEvent, on_bond_state_changed]
    split_ifs <;>
      first
        | exact h
        | exact PairState.setResult_preserves_resolved _ _ _ h
  | sspRequest address variant =>
    simp only [processPairEvent, on_ssp_request, on_set_pairing_confirmation]
    split_ifs <;>
      first
        | exact h
        | exact PairState.setResult_preserves_resolved _ _ _ h
  | deviceConnected address =>
    simp only [processPairEvent, on_device_connected]
    split_ifs <;>
      first
        | exact h
        | exact PairState.setResult_preserves_resolved _ _ _ h

/-- Witness for `connect_first_resolution_wins` at a concrete resolved
state and a concrete matching event. -/
theorem connect_first_resolution_wins_witness :
    (processPairEvent
      ⟨fun _ => true, fun _ => true, fun _ => true, fun _ => (false, true)⟩ "AA"
      ⟨.resolved (true, none), [], []⟩ (.deviceConnected "AA")).connect_device
      = .resolved (true, none) :=
  connect_first_resolution_wins _ "AA" _ (true, none) _ rfl

/-- C3: `on_bond_state_changed` for an event matching the requested
address, starting from a pending operation: a non-zero status resolves
failure and performs no `connect_all_enabled_profiles` call (trace
unchanged); status 0 with `BONDED` and the device already connected
resolves success; status 0 with `BONDED` and the device not connected
issues `connect_all_enabled_profiles`, and a falsy return of that call
resolves failure immediately (a truthy return leaves the operation
pending for `on_device_connected`). -/
theorem on_bond_state_changed_transitions (env : PairEnv) (addr : String)
    (st : PairState) (status : Nat) (state : BondState)
    (hpend : st.connect_device = .pending) :
    (status ≠ 0 →
      (on_bond_state_changed env addr st status addr state).connect_device
        = .resolved (false, some (.bondFailed status state)) ∧
      (on_bond_state_changed env addr st status addr state).trace = st.trace) ∧
    (status = 0 → state = BondState.bonded → env.is_connected addr = true →
      (on_bond_state_changed env addr st status addr state).connect_device
        = .resolved (true, none)) ∧
    (status = 0 → state = BondState.bonded → env.is_connected addr = false →
      (on_bond_state_changed env addr st status addr state).trace
        = st.trace ++ [.connectAllProfiles addr] ∧
      (env.connect_all_enabled_profiles addr = false →
        (on_bond_state_changed env addr st status addr state).connect_device
          = .resolved (false, some .connectAllFailed)) ∧
      (env.connect_all_enabled_profiles addr = true →
        (on_bond_state_changed env addr st status addr state).connect_device
          = .pending)) := by
  refine ⟨fun hs => ?_, fun hs hb hc => ?_, fun hs hb hc => ?_⟩
  · simp [on_bond_state_changed, hs, PairState.setResult, hpend, Future.set_result]
  · subst hs hb
    simp [on_bond_state_changed, hc, PairState.setResult, hpend, Future.set_result]
  · subst hs hb
    refine ⟨?_, fun hf => ?_, fun ht => ?_⟩
    · rcases Bool.eq_false_or_eq_true (env.connect_all_enabled_profiles addr) with hca | hca <;>
        simp [on_bond_state_changed, hc, hca, PairState.setResult, hpend, Future.set_result]
    · simp [on_bond_state_changed, hc, hf, PairState.setResult, hpend, Future.set_result]
    · simp [on_bond_state_changed, hc, ht, PairState.setResult, hpend, Future.set_result]

/-- Witness for `on_bond_state_changed_transitions`: a matching event with
non-zero status at a fresh pending operation resolves failure with no
profile-connect call. -/
theorem on_bond_state_changed_transitions_witness :
    (on_bond_state_changed
      ⟨fun _ => true, fun _ => true, fun _ => true, fun _ => (false, true)⟩ "AA"
      PairState.init 9 "AA" .bonding).connect_device
      = .resolved (false, some (.bondFailed 9 .bonding)) ∧
    (on_bond_state_changed
      ⟨fun _ => true, fun _ => true, fun _ => true, fun _ => (false, true)⟩ "AA"
      PairState.init 9 "AA" .bonding).trace = PairState.init.trace :=
  (on_bond_state_changed_transitions _ "AA" PairState.init 9 .bonding rfl).1 (by decide)

/-- C6: key isolation — an event whose correlation key differs from the
task's key leaves the task state completely unchanged: a pairing event
for a different device address neither resolves `connect_device` nor
performs any call, and an `on_scanner_registered` event for a different
scanner uuid neither resolves `register_scanner` nor enqueues into
`scan_results`. -/
theorem key_isolation (env : PairEnv) (taskAddr : String) (st : PairState)
    (status : Nat) (b : String) (state : BondState) (variant : SspVariant)
    (sst : ScanState) (uuid scanner_id gstatus : Nat)
    (hb : b ≠ taskAddr) (hu : uuid ≠ sst.uuid) :
    on_bond_state_changed env taskAddr st status b state = st ∧
    on_ssp_request env taskAddr st b variant = st ∧
    on_device_connected env taskAddr st b = st ∧
    on_scanner_registered sst uuid scanner_id gstatus = sst := by
  refine ⟨?_, ?_, ?_, ?_⟩
  · simp only [on_bond_state_changed]; rw [if_pos hb]
  · simp only [on_ssp_request]; rw [if_pos hb]
  · simp only [on_device_connected]; rw [if_pos hb]
  · simp only [on_scanner_registered]; rw [if_pos hu]

/-- Witness for `key_isolation` at concrete mismatching keys. -/
theorem key_isolation_witness :
    on_bond_state_changed
      ⟨fun _ => true, fun _ => true, fun _ => true, fun _ => (false, true)⟩ "AA"
      PairState.init 0 "BB" .bonded = PairState.init :=
  (key_isolation _ "AA" PairState.init 0 "BB" .bonded .consent ⟨5, .pending, [], []⟩ 6 1 0
    (by decide) (by decide)).1

/-! ### Advertise trace lemmas -/

/-- The unregister actions the `finally` block of `Advertise` performs for
a list of observer names: each name is unregistered from both clients. -/
def unregActs : List Nat → List Act
  | [] => []
  | n :: ns => .unregister .adapter n :: .unregister .advertising n :: unregActs ns

/-- The stop actions the `finally` block of `Advertise` performs. -/
def stopActs (ids : List (Option Nat)) : List Act :=
  ids.map Act.stopAdvSet

theorem countReg_append (a b : List Act) : countReg (a ++ b) = countReg a + countReg b := by
  simp [countReg, List.filter_append]

theorem countUnreg_append (a b : List Act) : countUnreg (a ++ b) = countUnreg a + countUnreg b := by
  simp [countUnreg, List.filter_append]

theorem countStartAdv_append (a b : List Act) :
    countStartAdv (a ++ b) = countStartAdv a + countStartAdv b := by
  simp [countStartAdv, List.filter_append]

theorem stopsOf_append (a b : List Act) : stopsOf (a ++ b) = stopsOf a ++ stopsOf b := by
  simp [stopsOf]

theorem countUnreg_unregActs (ns : List Nat) : countUnreg (unregActs ns) = 2 * ns.length := by
  induction ns with
  | nil => rfl
  | cons n ns ih => simp [unregActs, countUnreg, List.filter] at ih ⊢; omega

theorem countReg_unregActs (ns : List Nat) : countReg (unregActs ns) = 0 := by
  induction ns with
  | nil => rfl
  | cons n ns ih => simp [unregActs, countReg, List.filter] at ih ⊢; exact ih

theorem stopsOf_unregActs (ns : List Nat) : stopsOf (unregActs ns) = [] := by
  induction ns with
  | nil => rfl
  | cons n ns ih => simp [unregActs, stopsOf] at ih ⊢; exact ih

theorem countReg_stopActs (ids : List (Option Nat)) : countReg (stopActs ids) = 0 := by
  induction ids with
  | nil => rfl
  | cons i ids ih => simp [stopActs, countReg, List.filter] at ih ⊢

theorem countUnreg_stopActs (ids : List (Option Nat)) : countUnreg (stopActs ids) = 0 := by
  induction ids with
  | nil => rfl
  | cons i ids ih => simp [stopActs, countUnreg, List.filter] at ih ⊢

theorem stopsOf_stopActs (ids : List (Option Nat)) : stopsOf (stopActs ids) = ids := by
  induction ids with
  | nil => rfl
  | cons i ids ih => simpa [stopActs, stopsOf] using ih

theorem mem_unregActs_of_mem (ns : List Nat) (n : Nat) (h : n ∈ ns) :
    Act.unregister .adapter n ∈ unregActs ns ∧ Act.unregister .advertising n ∈ unregActs ns := by
  induction ns with
  | nil => cases h
  | cons m ns ih =>
    rcases List.mem_cons.mp h with rfl | h
    · exact ⟨List.mem_cons_self _ _, List.mem_cons_of_mem _ (List.mem_cons_self _ _)⟩
    · exact ⟨List.mem_cons_of_mem _ (List.mem_cons_of_mem _ (ih h).1),
        List.mem_cons_of_mem _ (List.mem_cons_of_mem _ (ih h).2)⟩

theorem not_register_mem_unregActs (ns : List Nat) (c : Client) (n : Nat) :
    Act.register c n ∉ unregActs ns := by
  induction ns with
  | nil => simp [unregActs]
  | cons m ns ih => simp [unregActs, ih]

theorem not_register_mem_stopActs (ids : List (Option Nat)) (c : Client) (n : Nat) :
    Act.register c n ∉ stopActs ids := by
  simp [stopActs, List.mem_map]

/-- The loop-time invariant of the `Advertise` handler state: register
calls and the `observers` list agree, no unregister or stop has been
issued yet, and a confirmed entry of `started_ids` is backed by a
`start_advertising_set` call. -/
def AdvInv (s : AdvState) : Prop :=
  countReg s.trace = s.observers.length ∧
  countUnreg s.trace = 0 ∧
  stopsOf s.trace = [] ∧
  s.started_ids.length ≤ countStartAdv s.trace ∧
  ∀ c n, Act.register c n ∈ s.trace → n ∈ s.observers

theorem countReg_register (c : Client) (n : Nat) : countReg [Act.register c n] = 1 := rfl

theorem countStartAdv_startAdvSet (i : Nat) : countStartAdv [Act.startAdvSet i] = 1 := rfl

theorem countStartAdv_register (c : Client) (n : Nat) :
    countStartAdv [Act.register c n] = 0 := rfl

/-- Emitting an action that is neither a register, an unregister nor a
stop preserves the loop invariant. -/
theorem advInv_emit_neutral (s : AdvState) (a : Act)
    (hr : countReg [a] = 0) (hu : countUnreg [a] = 0) (hs : stopsOf [a] = [])
    (hnr : ∀ c n, a ≠ .register c n) (h : AdvInv s) : AdvInv (s.emit a) := by
  obtain ⟨h1, h2, h3, h4, h5⟩ := h
  refine ⟨?_, ?_, ?_, ?_, ?_⟩
  · show countReg (s.trace ++ [a]) = s.observers.length
    rw [countReg_append, hr, h1]
    omega
  · show countUnreg (s.trace ++ [a]) = 0
    rw [countUnreg_append, hu, h2]
  · show stopsOf (s.trace ++ [a]) = []
    rw [stopsOf_append, hs, h3]
    rfl
  · show s.started_ids.length ≤ countStartAdv (s.trace ++ [a])
    rw [countStartAdv_append]; omega
  · intro c n hm
    rcases List.mem_append.mp hm with hm | hm
    · exact h5 c n hm
    · have hx : Act.register c n = a := List.mem_singleton.mp hm
      exact absurd hx.symm (hnr c n)

/-- Registering a freshly named observer preserves the loop invariant. -/
theorem advInv_registerFresh (s : AdvState) (c : Client) (h : AdvInv s) :
    AdvInv (s.registerFresh c) := by
  obtain ⟨h1, h2, h3, h4, h5⟩ := h
  refine ⟨?_, ?_, ?_, ?_, ?_⟩
  · show countReg (s.trace ++ [.register c s.nextName]) = (s.observers ++ [s.nextName]).length
    rw [countReg_append, countReg_register, List.length_append, h1]; rfl
  · show countUnreg (s.trace ++ [.register c s.nextName]) = 0
    rw [countUnreg_append, h2]; rfl
  · show stopsOf (s.trace ++ [.register c s.nextName]) = []
    rw [stopsOf_append, h3]; rfl
  · show s.started_ids.length ≤ countStartAdv (s.trace ++ [.register c s.nextName])
    rw [countStartAdv_append]; omega
  · intro c' n hm
    rcases List.mem_append.mp hm with hm | hm
    · exact List.mem_append.mpr (Or.inl (h5 c' n hm))
    · have hx := List.mem_singleton.mp hm
      have hn : n = s.nextName := by injection hx
      subst hn
      exact List.mem_append.mpr (Or.inr (List.mem_singleton.mpr rfl))

/-- Appending a confirmed advertiser id preserves the invariant when one
more `start_advertising_set` call than confirmed id is on the trace. -/
theorem advInv_append_started (s : AdvState) (idOpt : Option Nat) (h : AdvInv s)
    (hlt : s.started_ids.length < countStartAdv s.trace) :
    AdvInv { s with started_ids := s.started_ids ++ [idOpt] } := by
  obtain ⟨h1, h2, h3, _, h5⟩ := h
  refine ⟨h1, h2, h3, ?_, h5⟩
  show (s.started_ids ++ [idOpt]).length ≤ countStartAdv s.trace
  rw [List.length_append]
  simpa using hlt


/-- One loop iteration of `Advertise` preserves the invariant, on both
the continue and the escape result. -/
theorem advIter_inv (script : AdvScript) (connectable : Bool) (i : Nat)
    (s : AdvState) (h : AdvInv s) : AdvInv (advIter script connectable i s).2 := by
  cases hact : script.activeAdvs i with
  | true =>
    cases connectable with
    | false => simpa [advIter, hact] using h
    | true =>
      cases hconn : script.conn i with
      | none => simpa [advIter, hact, hconn] using h
      | some a =>
        simpa [advIter, hact, hconn] using
          advInv_emit_neutral s (.yieldConn a) rfl rfl rfl (fun c n hx => nomatch hx) h
  | false =>
    have hbase : AdvInv ((s.emit (.startAdvSet i)).registerFresh .advertising) :=
      advInv_registerFresh _ _
        (advInv_emit_neutral s (.startAdvSet i) rfl rfl rfl (fun c n hx => nomatch hx) h)
    cases hstart : script.start i with
    | timeout => simpa [advIter, hact, hstart] using hbase
    | confirmed idOpt =>
      have hlt : ((s.emit (.startAdvSet i)).registerFresh .advertising).started_ids.length
          < countStartAdv ((s.emit (.startAdvSet i)).registerFresh .advertising).trace := by
        show s.started_ids.length
          < countStartAdv ((s.trace ++ [.startAdvSet i]) ++ [.register .advertising s.nextName])
        rw [countStartAdv_append, countStartAdv_append, countStartAdv_startAdvSet,
          countStartAdv_register]
        have h4 := h.2.2.2.1
        omega
      have happ : AdvInv { (s.emit (.startAdvSet i)).registerFresh .advertising with
          started_ids := ((s.emit (.startAdvSet i)).registerFresh .advertising).started_ids
            ++ [idOpt] } :=
        advInv_append_started _ idOpt hbase hlt
      cases connectable with
      | false => simpa [advIter, hact, hstart] using happ
      | true =>
        cases hconn : script.conn i with
        | none => simpa [advIter, hact, hstart, hconn] using happ
        | some a =>
          simpa [advIter, hact, hstart, hconn] using
            advInv_emit_neutral _ (.yieldConn a) rfl rfl rfl (fun c n hx => nomatch hx) happ

/-- The `while True` loop of `Advertise` preserves the invariant up to any
exit (exhausted fuel = consumer cancellation, start timeout, or
cancellation while waiting for a connection). -/
theorem advLoop_inv (script : AdvScript) (connectable : Bool) (fuel : Nat) :
    ∀ (i : Nat) (s : AdvState), AdvInv s → AdvInv (advLoop script connectable fuel i s) := by
  induction fuel with
  | zero => intro i s h; exact h
  | succ fuel ih =>
    intro i s h
    have hiter := advIter_inv script connectable i s h
    rw [advLoop]
    cases hAdv : advIter script connectable i s with
    | mk cont s2 =>
      rw [hAdv] at hiter
      cases cont
      · simpa using hiter
      · exact ih (i + 1) s2 hiter

/-- The `finally` block appends the double unregistration of every
observer and one `stop_advertising_set` per entry of `started_ids`, and
touches nothing else. -/
theorem advFinally_spec (s : AdvState) :
    (advFinally s).trace = s.trace ++ unregActs s.observers ++ stopActs s.started_ids ∧
    (advFinally s).started_ids = s.started_ids := by
  have hfold1 : ∀ (ns : List Nat) (s : AdvState),
      (ns.foldl (fun s n =>
        (s.emit (.unregister .adapter n)).emit (.unregister .advertising n)) s).trace
        = s.trace ++ unregActs ns ∧
      (ns.foldl (fun s n =>
        (s.emit (.unregister .adapter n)).emit (.unregister .advertising n)) s).started_ids
        = s.started_ids := by
    intro ns
    induction ns with
    | nil => intro s; simp [unregActs]
    | cons n ns ih =>
      intro s
      obtain ⟨ht, hs⟩ := ih ((s.emit (.unregister .adapter n)).emit (.unregister .advertising n))
      constructor
      · rw [List.foldl_cons, ht]
        show (s.trace ++ [.unregister .adapter n]) ++ [.unregister .advertising n]
            ++ unregActs ns = s.trace ++ unregActs (n :: ns)
        simp [unregActs]
      · rw [List.foldl_cons, hs]
        rfl
  have hfold2 : ∀ (ids : List (Option Nat)) (s : AdvState),
      (ids.foldl (fun s idOpt => s.emit (.stopAdvSet idOpt)) s).trace
        = s.trace ++ stopActs ids := by
    intro ids
    induction ids with
    | nil => intro s; simp [stopActs]
    | cons i ids ih =>
      intro s
      rw [List.foldl_cons, ih]
      show (s.trace ++ [.stopAdvSet i]) ++ stopActs ids = s.trace ++ stopActs (i :: ids)
      simp [stopActs]
  have hfold2b : ∀ (ids : List (Option Nat)) (s : AdvState),
      (ids.foldl (fun s idOpt => s.emit (.stopAdvSet idOpt)) s).started_ids
        = s.started_ids := by
    intro ids
    induction ids with
    | nil => intro s; rfl
    | cons i ids ih =>
      intro s
      rw [List.foldl_cons, ih]
      rfl
  unfold advFinally
  obtain ⟨ht1, hs1⟩ := hfold1 s.observers s
  dsimp only
  constructor
  · rw [hfold2 _ _, ht1, hs1]
  · rw [hfold2b _ _, hs1]

/-- The initial `Advertise` state (after the optional connection-observer
registration) satisfies the invariant. -/
theorem advInit_inv (connectable : Bool) :
    AdvInv (if connectable then (⟨0, [], [], []⟩ : AdvState).registerFresh .adapter
      else ⟨0, [], [], []⟩) := by
  cases connectable with
  | false =>
    refine ⟨rfl, rfl, rfl, le_refl _, ?_⟩
    intro c n hm
    cases hm
  | true =>
    exact advInv_registerFresh _ _ ⟨rfl, rfl, rfl, le_refl _, fun c n hm => nomatch hm⟩

/-- C2 counterexample: a non-connectable `Advertise` whose first
advertising start is confirmed and whose consumer then cancels makes one
`register_callback_observer` call but two `unregister_callback_observer`
calls (the `finally` unregisters the observer from both the adapter and
the advertising client), so the two counts differ. -/
theorem advertise_register_unregister_counts_differ :
    countReg (advertiseRun ⟨fun _ => false, fun _ => .confirmed (some 7), fun _ => none⟩
      false 1).trace = 1 ∧
    countUnreg (advertiseRun ⟨fun _ => false, fun _ => .confirmed (some 7), fun _ => none⟩
      false 1).trace = 2 := by
  constructor <;> rfl

/-- C2 (amended): every `Advertise` execution unregisters each registered
observer name from both clients by call end — no registration leaks — but
the unregister-call count is exactly twice the register-call count. -/
theorem advertise_no_observer_leak (script : AdvScript) (connectable : Bool) (fuel : Nat) :
    countUnreg (advertiseRun script connectable fuel).trace
      = 2 * countReg (advertiseRun script connectable fuel).trace ∧
    ∀ c n, Act.register c n ∈ (advertiseRun script connectable fuel).trace →
      Act.unregister .adapter n ∈ (advertiseRun script connectable fuel).trace ∧
      Act.unregister .advertising n ∈ (advertiseRun script connectable fuel).trace := by
  have hinv := advLoop_inv script connectable fuel 0 _ (advInit_inv connectable)
  set sl := advLoop script connectable fuel 0
    (if connectable then (⟨0, [], [], []⟩ : AdvState).registerFresh .adapter
      else ⟨0, [], [], []⟩) with hsl
  obtain ⟨h1, h2, h3, h4, h5⟩ := hinv
  obtain ⟨htr, hst⟩ := advFinally_spec sl
  have hrun : advertiseRun script connectable fuel = advFinally sl := by
    rw [advertiseRun, hsl]
  rw [hrun, htr]
  constructor
  · rw [countUnreg_append, countUnreg_append, countReg_append, countReg_append,
      countUnreg_unregActs, countUnreg_stopActs, countReg_unregActs, countReg_stopActs,
      h1, h2]
    omega
  · intro c n hm
    have hmem : n ∈ sl.observers := by
      rcases List.mem_append.mp hm with hm | hm
      · rcases List.mem_append.mp hm with hm | hm
        · exact h5 c n hm
        · exact absurd hm (not_register_mem_unregActs _ c n)
      · exact absurd hm (not_register_mem_stopActs _ c n)
    obtain ⟨hu1, hu2⟩ := mem_unregActs_of_mem sl.observers n hmem
    exact ⟨List.mem_append.mpr (Or.inl (List.mem_append.mpr (Or.inr hu1))),
      List.mem_append.mpr (Or.inl (List.mem_append.mpr (Or.inr hu2)))⟩

/-- Witness for `advertise_no_observer_leak`: at a concrete connectable
run, the registered connection observer (name 0, adapter client) is
unregistered from both clients. -/
theorem advertise_no_observer_leak_witness :
    Act.unregister .adapter 0 ∈ (advertiseRun
      ⟨fun _ => true, fun _ => .confirmed (some 3), fun _ => some "AA"⟩ true 1).trace ∧
    Act.unregister .advertising 0 ∈ (advertiseRun
      ⟨fun _ => true, fun _ => .confirmed (some 3), fun _ => some "AA"⟩ true 1).trace :=
  (advertise_no_observer_leak
    ⟨fun _ => true, fun _ => .confirmed (some 3), fun _ => some "AA"⟩ true 1).2
    .adapter 0 (by decide)

/-- C7 counterexample: a non-connectable `Advertise` run in which
`start_advertising_set` is issued but the `on_advertising_set_started`
confirmation does not arrive within the 5-second `wait_for` bound: the
handler exits with `TimeoutError` having issued one start and zero stops,
so an advertising set the handler started is never stopped. -/
theorem advertise_timeout_leaks_started_set :
    countStartAdv (advertiseRun ⟨fun _ => false, fun _ => .timeout, fun _ => none⟩
      false 1).trace = 1 ∧
    stopsOf (advertiseRun ⟨fun _ => false, fun _ => .timeout, fun _ => none⟩
      false 1).trace = [] := by
  constructor <;> rfl

/-- C7 (amended): on every exit of the streaming handlers, each stop call
is issued at most once per started activity, and every activity whose
start the handler saw confirmed is stopped: `Advertise` stops exactly the
confirmed entries of `started_ids` (one stop per entry, and never more
stops than `start_advertising_set` calls); `Scan` calls `stop_scan`
exactly once when a scanner id was obtained and never otherwise;
`Inquiry` calls `stop_discovery` exactly once on every exit. Advertising
sets whose start was issued but not confirmed within the timeout are not
stopped (see the counterexample). -/
theorem streaming_teardown_stops_confirmed (script : AdvScript) (connectable : Bool)
    (fuel : Nat) (reg : StartOutcome) (alreadyDiscovering confirm : Bool) :
    stopsOf (advertiseRun script connectable fuel).trace
      = (advertiseRun script connectable fuel).started_ids ∧
    (advertiseRun script connectable fuel).started_ids.length
      ≤ countStartAdv (advertiseRun script connectable fuel).trace ∧
    countStopScan (scanRun reg)
      = (match reg with | .confirmed (some _) => 1 | _ => 0) ∧
    countStopDiscovery (inquiryRun alreadyDiscovering confirm) = 1 := by
  have hinv := advLoop_inv script connectable fuel 0 _ (advInit_inv connectable)
  set sl := advLoop script connectable fuel 0
    (if connectable then (⟨0, [], [], []⟩ : AdvState).registerFresh .adapter
      else ⟨0, [], [], []⟩) with hsl
  obtain ⟨h1, h2, h3, h4, h5⟩ := hinv
  obtain ⟨htr, hst⟩ := advFinally_spec sl
  have hrun : advertiseRun script connectable fuel = advFinally sl := by
    rw [advertiseRun, hsl]
  refine ⟨?_, ?_, ?_, ?_⟩
  · rw [hrun, htr, hst, stopsOf_append, stopsOf_append, stopsOf_unregActs,
      stopsOf_stopActs, h3]
    rfl
  · rw [hrun, htr, hst, countStartAdv_append, countStartAdv_append]
    omega
  · rcases reg with id | _
    · rcases id with _ | i <;> rfl
    · rfl
  · rcases alreadyDiscovering <;> rcases confirm <;> rfl

end Floss

namespace Floss

/-- C4 counterexample: `ExchangeMTU` with no matching `on_configure_mtu`
event ever delivered does not fail with a timeout error — the handler
awaits the bare future with no `asyncio.wait_for` bound, so it stays
suspended and the observer is still registered (zero unregister calls). -/
theorem exchange_mtu_no_timeout_blocks :
    (exchangeMTU "AA" []).outcome = .blocked ∧
    (exchangeMTU "AA" []).unregisters = 0 ∧
    (exchangeMTU "AA" []).outcome ≠ .err .timeoutError := by
  refine ⟨rfl, rfl, by decide⟩

/-- C4 (amended): `ExchangeMTU` applies no timeout bound to its wait: with
no matching event the call stays suspended with the observer still
registered; whenever the await does complete (any matching event, success
or failure status), the `finally` block unregisters the observer. -/
theorem exchange_mtu_unbounded_wait_cleanup (address : String) (events : List MtuEvent) :
    (events.find? (fun e => e.addr == address) = none →
      (exchangeMTU address events).outcome = .blocked ∧
      (exchangeMTU address events).unregisters = 0) ∧
    (∀ e, events.find? (fun ev => ev.addr == address) = some e →
      (exchangeMTU address events).registers = 1 ∧
      (exchangeMTU address events).unregisters = 1) := by
  constructor
  · intro h
    refine ⟨?_, ?_⟩ <;> simp [exchangeMTU, h]
  · intro e h
    simp only [exchangeMTU, h]
    split_ifs <;> exact ⟨rfl, rfl⟩

/-- Witness for `exchange_mtu_unbounded_wait_cleanup` at an empty event
trace. -/
theorem exchange_mtu_unbounded_wait_cleanup_witness :
    (exchangeMTU "AA" ([] : List MtuEvent)).outcome = .blocked ∧
    (exchangeMTU "AA" ([] : List MtuEvent)).unregisters = 0 :=
  (exchange_mtu_unbounded_wait_cleanup "AA" []).1 rfl

/-- C5: `WriteAttFromHandle` first reads the characteristic at the
requested handle; a non-success characteristic-read status falls back to
a descriptor read; if that also fails, the RPC still returns a response
carrying the request handle and the `INVALID_HANDLE` status field, and no
write is issued; if either read succeeds, the corresponding write
(characteristic resp. descriptor) is issued and the response carries the
status and handle of the write-complete event. -/
theorem write_att_read_fallback (reqHandle charStatus descStatus : Nat)
    (writeEvent : Nat × Nat) :
    Act.readCharacteristic reqHandle
      ∈ (writeAttFromHandle reqHandle charStatus descStatus writeEvent).trace ∧
    (charStatus ≠ 0 → descStatus ≠ 0 →
      (writeAttFromHandle reqHandle charStatus descStatus writeEvent).response
        = (reqHandle, .invalidHandle) ∧
      (∀ h, Act.writeCharacteristic h
        ∉ (writeAttFromHandle reqHandle charStatus descStatus writeEvent).trace) ∧
      (∀ h, Act.writeDescriptor h
        ∉ (writeAttFromHandle reqHandle charStatus descStatus writeEvent).trace)) ∧
    (charStatus = 0 →
      Act.writeCharacteristic reqHandle
        ∈ (writeAttFromHandle reqHandle charStatus descStatus writeEvent).trace ∧
      (writeAttFromHandle reqHandle charStatus descStatus writeEvent).response
        = (writeEvent.2, .fromEvent writeEvent.1)) ∧
    (charStatus ≠ 0 → descStatus = 0 →
      Act.readDescriptor reqHandle
        ∈ (writeAttFromHandle reqHandle charStatus descStatus writeEvent).trace ∧
      Act.writeDescriptor reqHandle
        ∈ (writeAttFromHandle reqHandle charStatus descStatus writeEvent).trace ∧
      (writeAttFromHandle reqHandle charStatus descStatus writeEvent).response
        = (writeEvent.2, .fromEvent writeEvent.1)) := by
  by_cases hc : charStatus = 0
  · refine ⟨?_, fun h _ => absurd hc h, fun _ => ⟨?_, ?_⟩, fun h _ => absurd hc h⟩ <;>
      simp [writeAttFromHandle, hc]
  · by_cases hd : descStatus = 0
    · refine ⟨?_, fun _ h => absurd hd h, fun h => absurd h hc, fun _ _ => ⟨?_, ?_, ?_⟩⟩ <;>
        simp [writeAttFromHandle, hc, hd]
    · refine ⟨?_, fun _ _ => ⟨?_, ?_, ?_⟩, fun h => absurd h hc, fun _ h => absurd h hd⟩ <;>
        simp [writeAttFromHandle, hc, hd]

/-- Witness for `write_att_read_fallback`: both reads fail at handle 4 —
the response reports `(4, INVALID_HANDLE)` and no write is issued. -/
theorem write_att_read_fallback_witness :
    (writeAttFromHandle 4 1 1 (0, 9)).response = (4, .invalidHandle) ∧
    (∀ h, Act.writeCharacteristic h ∉ (writeAttFromHandle 4 1 1 (0, 9)).trace) ∧
    (∀ h, Act.writeDescriptor h ∉ (writeAttFromHandle 4 1 1 (0, 9)).trace) :=
  (write_att_read_fallback 4 1 1 (0, 9)).2.1 (by decide) (by decide)

/-- C8 counterexample: `WaitConnection` on a device that is already
connected but not in the already-waited set still takes the wait path and
registers an observer — the guard is `not is_connected(address) or
address not in self.waited_connections`, not "not connected" alone — so
"already connected implies immediate return without registering" fails. -/
theorem wait_connection_waits_when_connected :
    (waitConnection true [] "AA" ["AA"]).tookWaitPath = true ∧
    (waitConnection true [] "AA" ["AA"]).registers = 1 := by
  refine ⟨rfl, rfl⟩

/-- C8 (amended): `WaitConnection` takes the wait path exactly when the
device is not connected OR its address is not in the already-waited set;
only when the device is connected AND already waited does it return the
response immediately with no observer registration. -/
theorem wait_connection_guard (is_connected : Bool) (waited : List String)
    (address : String) (events : List String) :
    (waitConnection is_connected waited address events).tookWaitPath
      = (!is_connected || !(waited.contains address)) ∧
    (waitConnection is_connected waited address events).registers
      = (if !is_connected || !(waited.contains address) then 1 else 0) ∧
    ((!is_connected || !(waited.contains address)) = false →
      (waitConnection is_connected waited address events).outcome = .ok address) := by
  cases is_connected with
  | false =>
    cases hfind : events.find? (fun a => a == address) with
    | none => refine ⟨?_, ?_, ?_⟩ <;> simp [waitConnection, hfind]
    | some a =>
      refine ⟨?_, ?_, ?_⟩ <;> simp [waitConnection, hfind, hostServiceAttrs]
  | true =>
    by_cases hm : address ∈ waited
    · refine ⟨?_, ?_, ?_⟩ <;> simp [waitConnection, hm]
    · cases hfind : events.find? (fun a => a == address) with
      | none => refine ⟨?_, ?_, ?_⟩ <;> simp [waitConnection, hm, hfind]
      | some a =>
        refine ⟨?_, ?_, ?_⟩ <;> simp [waitConnection, hm, hfind, hostServiceAttrs]

/-- Witness for `wait_connection_guard`: connected and already waited —
the call returns the connection response immediately. -/
theorem wait_connection_guard_witness :
    (waitConnection true ["AA"] "AA" []).outcome = .ok "AA" :=
  (wait_connection_guard true ["AA"] "AA" []).2.2 (by decide)

/-- C9 (the code defect the spec flags): a `WaitConnection` that performs
a wait, at the failing input `is_connected = false`,
`waited_connections = ∅`, address `"AA"` with the matching connected-event
delivered: after the await resolves and the observer is unregistered, the
mutation line targets the attribute `waited_connection`, which the service
does not have (`__init__` assigns `waited_connections`), so the call
raises `AttributeError`; the address is never recorded in
`waited_connections` and the `WaitConnectionResponse` is never returned. -/
theorem wait_connection_attribute_error :
    (waitConnection false [] "AA" ["AA"]).outcome = .err .attributeError ∧
    (waitConnection false [] "AA" ["AA"]).waitedAfter = [] ∧
    (waitConnection false [] "AA" ["AA"]).unregisters = 1 := by
  refine ⟨rfl, rfl, rfl⟩

/-- C10: for every `DiscoverServicesSdp` call whose remote device has bond
state `BONDING` — whatever the uuid list (absent, empty, or non-empty) and
whatever the remaining environment — the handler registers no observer and
the `finally` block reads the unbound locals `name`/`observer`, so the
call raises `UnboundLocalError` (a `NameError`) instead of returning a
response. -/
theorem discover_services_sdp_bonding_name_error (uuids uuidsAfter : Option (List Nat))
    (fetch_ok eventArrives : Bool) :
    (discoverServicesSdp .bonding uuids fetch_ok eventArrives uuidsAfter).registers = 0 ∧
    (discoverServicesSdp .bonding uuids fetch_ok eventArrives uuidsAfter).outcome
      = .err .nameError := by
  by_cases hg : pyEqZero (sdpGuardOperand uuids) = true
  · refine ⟨?_, ?_⟩ <;> simp [discoverServicesSdp, hg]
  · refine ⟨?_, ?_⟩ <;> simp [discoverServicesSdp, hg]

end Floss
